import Mathlib

/-!
Shallow embedding of the client-side synchronization engine of
`src/static/js/app.js` (GCP-GuardianDashboard): the authenticated transport
(`fetchWithAuth`), the cached status synchronizer (`updateDashboardForServer`),
the uncached action-log synchronizer (`updateActionLogsForServer`) and the
action coordinator (`handleVmAction`).

Modelling conventions:
- Browser `localStorage` is split into the `accessToken` slot and an
  association list for the remaining keys; `setItem` shadows by prepending.
- A stored cache record is either the JSON serialization of a
  `data`/`timestamp` object or a corrupt string on which `JSON.parse` throws.
- Time is milliseconds as a natural number (both operands of the freshness
  subtraction come from `Date.getTime()` and are non-negative; for a
  timestamp in the future both JS and truncated Nat subtraction classify the
  entry as fresh).
- The network is an oracle passed as an argument: either a response with a
  status code and a body, or a network error (rejected `fetch` promise).
  A body is wrapped in `Option` so that `none` models a body on which
  `response.json()` rejects.
- Each observable side effect (network call, redirect, DOM render, alert,
  console log, `setTimeout` registration) is recorded as an event in an
  emitted trace, in program order.
-/

namespace GuardianDashboard

/-- A monitored server entity, as fetched from `/api/v1/servers`. -/
structure Server where
  id : String
  name : String
deriving DecidableEq, Repr

/-- A record persisted in localStorage under a dashboard cache key: either a
well-formed serialization of a data/timestamp pair, or a corrupt string on
which `JSON.parse` throws a SyntaxError. -/
inductive StoredRecord where
  | valid (data : String) (timestamp : Nat)
  | corrupt (raw : String)
deriving DecidableEq, Repr

/-- The localStorage key for a server's dashboard status cache record
(`dashboardData-` followed by the server id, line 175 of app.js). -/
def cacheKey (server : Server) : String :=
  "dashboardData-" ++ server.id

/-- The client-visible persistent state: the `accessToken` slot of
localStorage and the remaining key/record pairs. -/
structure ClientState where
  accessToken : Option String
  store : List (String × StoredRecord)
deriving DecidableEq, Repr

/-- localStorage.getItem on the cache area: first binding for the key wins. -/
def storeGet (k : String) : List (String × StoredRecord) → Option StoredRecord
  | [] => none
  | (k', v) :: rest => if k' = k then some v else storeGet k rest

/-- The requests the engine can issue, by endpoint shape. -/
inductive Request where
  | statusReq (serverId : String)
  | actionReq (serverId : String) (action : String)
  | logsReq (serverId : String) (limit : Nat)
deriving DecidableEq, Repr

/-- One entry of the action log, as consumed by the renderer. -/
structure LogEntry where
  timestamp : String
  action_type : String
  reason : Option String
deriving DecidableEq, Repr

/-- A callback registered through `setTimeout`. -/
inductive ScheduledTask where
  | forcedDashboardSync (serverId : String)
  | logsSync (serverId : String)
deriving DecidableEq, Repr

/-- Observable side effects, recorded in program order. -/
inductive Event where
  | networkCall (req : Request)
  | redirectToLogin
  | renderDashboard (serverId : String) (data : String)
  | renderError (serverId : String) (msg : String)
  | renderLogs (serverId : String) (logs : List LogEntry)
  | renderNoLogs (serverId : String)
  | alertMsg (msg : String)
  | consoleError (serverId : String)
  | scheduleTimeout (delayMs : Nat) (tasks : List ScheduledTask)
deriving DecidableEq, Repr

/-- Result of the raw `fetch` call, supplied by the environment: a response
with a status code and a body, or a rejected promise. The body is `none`
when `response.json()` would reject on it. -/
inductive HttpResult (β : Type) where
  | resp (status : Nat) (body : Option β)
  | netErr
deriving DecidableEq, Repr

/-- The ways a `fetchWithAuth` invocation can throw. -/
inductive FetchErr where
  | noToken
  | unauthorized
  | network
deriving DecidableEq, Repr

/-- Embedding of `fetchWithAuth` (app.js lines 103-117): with no stored token
it redirects and throws without issuing a call; otherwise it issues the call
once; a 401 response removes the token, redirects and throws without
returning the response; every other response is returned verbatim. -/
def fetchWithAuth {β : Type} (s : ClientState) (req : Request)
    (result : HttpResult β) :
    Except FetchErr (Nat × Option β) × ClientState × List Event :=
  match s.accessToken with
  | none => (.error .noToken, s, [.redirectToLogin])
  | some _ =>
    match result with
    | .netErr => (.error .network, s, [.networkCall req])
    | .resp status body =>
      if status = 401 then
        (.error .unauthorized, { s with accessToken := none },
          [.networkCall req, .redirectToLogin])
      else
        (.ok (status, body), s, [.networkCall req])

/-- response.ok of the Fetch API: status in the inclusive range 200-299. -/
def okStatus (status : Nat) : Bool :=
  decide (200 ≤ status ∧ status ≤ 299)

/-- The error classes absorbed by a catch block of the synchronizers. -/
inductive DegradedErr where
  | authNoToken
  | authUnauthorized
  | network
  | httpNotOk (status : Nat)
  | badBody
deriving DecidableEq, Repr

/-- How one invocation of the status synchronizer ended. -/
inductive SyncOutcome where
  | parseFailure
  | cacheHit (data : String)
  | fetched (data : String)
  | degraded (err : DegradedErr)
deriving DecidableEq, Repr

/-- Reclassification of a thrown transport error inside a catch block. -/
def liftFetchErr : FetchErr → DegradedErr
  | .noToken => .authNoToken
  | .unauthorized => .authUnauthorized
  | .network => .network

/-- The side effects of the catch block of `updateDashboardForServer`
(lines 190-193): a console log and the degraded traffic-details text. -/
def degradedEvents (server : Server) : List Event :=
  [.consoleError server.id, .renderError server.id "Error loading data."]

/-- The try block of `updateDashboardForServer` from the fetch on
(lines 184-193): fetch the status endpoint, throw on a non-ok status, parse
the body, render it and overwrite the cache record with the data and the
`now` read at entry; any throw lands in the catch block, which logs and
renders the degraded text without touching the cache. -/
def dashboardFetchStep (s : ClientState) (server : Server) (now : Nat)
    (res : HttpResult String) : SyncOutcome × ClientState × List Event :=
  match fetchWithAuth s (Request.statusReq server.id) res with
  | (.error e, s1, ev) => (.degraded (liftFetchErr e), s1, ev ++ degradedEvents server)
  | (.ok (status, body), s1, ev) =>
    if okStatus status then
      match body with
      | some d =>
        (.fetched d,
          { s1 with store := (cacheKey server, .valid d now) :: s1.store },
          ev ++ [.renderDashboard server.id d])
      | none => (.degraded .badBody, s1, ev ++ degradedEvents server)
    else
      (.degraded (.httpNotOk status), s1, ev ++ degradedEvents server)

/-- Embedding of `updateDashboardForServer` (app.js lines 174-194).
The cache record is read and parsed before the try block: a corrupt record
throws out of the function with no other effect. A well-formed record that
is fresh (age under 3600000 ms) short-circuits a non-forced call with a
render of the cached data and no network activity; otherwise the fetch step
runs. -/
def updateDashboardForServer (s : ClientState) (server : Server) (force : Bool)
    (now : Nat) (res : HttpResult String) :
    SyncOutcome × ClientState × List Event :=
  match storeGet (cacheKey server) s.store with
  | some (.corrupt _) => (.parseFailure, s, [])
  | some (.valid d ts) =>
    if force = false ∧ now - ts < 3600000 then
      (.cacheHit d, s, [.renderDashboard server.id d])
    else
      dashboardFetchStep s server now res
  | none => dashboardFetchStep s server now res

/-- The guard of app.js line 179 seen from the fetch side: `true` exactly when
the parsed cache record does not satisfy `!force && cachedData && fresh`,
i.e. when control reaches the try block. `false` on a corrupt record, which
throws before the guard. -/
def bypassesCache (force : Bool) (now : Nat) : Option StoredRecord → Bool
  | none => true
  | some (.valid _ ts) => force || !decide (now - ts < 3600000)
  | some (.corrupt _) => false

/-- How one invocation of the action-log synchronizer ended. -/
inductive LogsOutcome where
  | rendered (logs : List LogEntry)
  | renderedEmpty
  | failed (err : DegradedErr)
deriving DecidableEq, Repr

/-- Embedding of `updateActionLogsForServer` (app.js lines 196-216): fetch the
log endpoint with the fixed limit 10, throw on a non-ok status, parse the
body; an empty list renders the placeholder, a non-empty list renders its
entries; any throw is absorbed by the catch block with only a console log.
The cache area is neither read nor written. -/
def updateActionLogsForServer (s : ClientState) (server : Server)
    (res : HttpResult (List LogEntry)) :
    LogsOutcome × ClientState × List Event :=
  match fetchWithAuth s (Request.logsReq server.id 10) res with
  | (.error e, s1, ev) => (.failed (liftFetchErr e), s1, ev ++ [.consoleError server.id])
  | (.ok (status, body), s1, ev) =>
    if okStatus status then
      match body with
      | some logs =>
        match logs with
        | [] => (.renderedEmpty, s1, ev ++ [.renderNoLogs server.id])
        | l :: ls => (.rendered (l :: ls), s1, ev ++ [.renderLogs server.id (l :: ls)])
      | none => (.failed .badBody, s1, ev ++ [.consoleError server.id])
    else
      (.failed (.httpNotOk status), s1, ev ++ [.consoleError server.id])

/-- The body of an action endpoint's failure response, once parsed as JSON:
the optional `detail` field. -/
structure ActionErrorBody where
  detail : Option String
deriving DecidableEq, Repr

/-- The message the failure branch of `handleVmAction` alerts: the `detail`
field when present and truthy (JavaScript `error.detail || fallback`, so an
empty string also falls back), the generic message otherwise. -/
def actionFailureMsg (body : ActionErrorBody) : String :=
  match body.detail with
  | some d => if d = "" then "Failed to perform action" else d
  | none => "Failed to perform action"

/-- How one invocation of the action coordinator ended. -/
inductive ActionOutcome where
  | declined
  | succeeded
  | failedWithMsg (msg : String)
  | errorLogged (err : DegradedErr)
deriving DecidableEq, Repr

/-- Embedding of `handleVmAction` (app.js lines 218-235): a declined
confirmation returns with no effect; otherwise the action endpoint is POSTed
once. On an ok status an alert is shown and a single 3000 ms timeout is
registered that will run a forced dashboard sync and a log sync for the
entity. On a non-ok status the body is parsed and its detail (or a generic
message) alerted; a throw anywhere in the try block (missing token, network
error, 401, unparseable failure body) reaches the catch block, which only
logs. -/
def handleVmAction (s : ClientState) (server : Server) (action : String)
    (confirmed : Bool) (res : HttpResult ActionErrorBody) :
    ActionOutcome × ClientState × List Event :=
  if confirmed = false then (.declined, s, [])
  else
    match fetchWithAuth s (Request.actionReq server.id action) res with
    | (.error e, s1, ev) => (.errorLogged (liftFetchErr e), s1, ev ++ [.consoleError server.id])
    | (.ok (status, body), s1, ev) =>
      if okStatus status then
        (.succeeded, s1,
          ev ++ [.alertMsg ("VM " ++ action ++ " initiated for server " ++ server.name ++ "."),
                 .scheduleTimeout 3000
                   [.forcedDashboardSync server.id, .logsSync server.id]])
      else
        match body with
        | some b =>
          (.failedWithMsg (actionFailureMsg b), s1,
            ev ++ [.alertMsg ("Error: " ++ actionFailureMsg b)])
        | none => (.errorLogged .badBody, s1, ev ++ [.consoleError server.id])

/-- The network-call events of a trace, in order. -/
def networkCalls (evs : List Event) : List Request :=
  evs.filterMap fun e =>
    match e with
    | .networkCall req => some req
    | _ => none

/-- The setTimeout registrations of a trace, in order. -/
def scheduledTimeouts (evs : List Event) : List (Nat × List ScheduledTask) :=
  evs.filterMap fun e =>
    match e with
    | .scheduleTimeout delay tasks => some (delay, tasks)
    | _ => none

/-- The alert events of a trace, in order. -/
def alerts (evs : List Event) : List String :=
  evs.filterMap fun e =>
    match e with
    | .alertMsg m => some m
    | _ => none

/-- True when `JSON.parse` succeeds on the cache slot: the record is absent
(`JSON.parse(null)` yields `null`) or well-formed. -/
def parseableRecord : Option StoredRecord → Bool
  | some (.corrupt _) => false
  | _ => true

/-- True when the raw fetch result makes the try block of the status
synchronizer throw at the fetch or at the ok-check: a network error or a
response whose status is outside 200-299 (a 401 throws inside
`fetchWithAuth` instead of at the ok-check, but throws all the same). -/
def fetchFailed : HttpResult String → Bool
  | .netErr => true
  | .resp status _ => !okStatus status

section Lemmas

/-- Helper: when the parsed cache record lets control reach the try block,
the status synchronizer is exactly its fetch step. -/
theorem updateDashboard_reaches_fetch {s : ClientState} {server : Server}
    {force : Bool} {now : Nat} {res : HttpResult String}
    (hbyp : bypassesCache force now (storeGet (cacheKey server) s.store) = true) :
    updateDashboardForServer s server force now res =
      dashboardFetchStep s server now res := by
  cases hg : storeGet (cacheKey server) s.store with
  | none => simp [updateDashboardForServer, hg]
  | some rec =>
    cases rec with
    | corrupt raw => rw [hg] at hbyp; simp [bypassesCache] at hbyp
    | valid dd ts =>
      rw [hg] at hbyp
      simp only [bypassesCache] at hbyp
      have hcond : ¬(force = false ∧ now - ts < 3600000) := by
        rintro ⟨hf, hfr⟩
        subst hf
        simp [hfr] at hbyp
      simp [updateDashboardForServer, hg, hcond]

/-- Helper: with a token present, the fetch step issues exactly one call to
the status endpoint. -/
theorem dashboardFetchStep_networkCalls {s : ClientState} {tok : String}
    {server : Server} {now : Nat} {res : HttpResult String}
    (htok : s.accessToken = some tok) :
    networkCalls (dashboardFetchStep s server now res).2.2 =
      [Request.statusReq server.id] := by
  unfold dashboardFetchStep fetchWithAuth
  rw [htok]
  cases res with
  | netErr => simp [networkCalls, degradedEvents]
  | resp status body =>
    by_cases h401 : status = 401
    · simp [h401, networkCalls, degradedEvents]
    · by_cases hok : okStatus status = true
      · cases body with
        | none => simp [h401, hok, networkCalls, degradedEvents]
        | some d => simp [h401, hok, networkCalls]
      · simp [h401, hok, networkCalls, degradedEvents]

/-- Helper: when the fetch step reports a fetched value, the new store maps
the server's cache key to that value stamped with the entry instant. -/
theorem dashboardFetchStep_fetched_store {s : ClientState} {server : Server}
    {now : Nat} {res : HttpResult String} {d : String}
    (h : (dashboardFetchStep s server now res).1 = .fetched d) :
    storeGet (cacheKey server) (dashboardFetchStep s server now res).2.1.store =
      some (.valid d now) := by
  unfold dashboardFetchStep at h ⊢
  rcases hfe : fetchWithAuth s (Request.statusReq server.id) res with ⟨r, s1, ev⟩
  rw [hfe] at h
  rcases r with e | ⟨status, body⟩
  · simp at h
  · by_cases hok : okStatus status = true
    · cases body with
      | none => simp [hok] at h
      | some d' =>
        simp only [hok, if_true] at h ⊢
        simp only [SyncOutcome.fetched.injEq] at h
        subst h
        simp [storeGet]
    · simp [hok] at h

end Lemmas

section Claims

/-- C3: for every invocation of the authenticated transport on a present
token, a 401 response clears the session token, signals the redirect to
login, and makes the call fail with the unauthorized AuthError without the
response being returned; every non-401 response is returned verbatim with
the state untouched. -/
theorem fetchWithAuth_status_dispatch {β : Type} (s : ClientState) (tok : String)
    (req : Request) (status : Nat) (body : Option β)
    (htok : s.accessToken = some tok) :
    (status = 401 →
      fetchWithAuth s req (.resp status body) =
        (.error .unauthorized, { s with accessToken := none },
          [.networkCall req, .redirectToLogin])) ∧
    (status ≠ 401 →
      fetchWithAuth s req (.resp status body) =
        (.ok (status, body), s, [.networkCall req])) := by
  unfold fetchWithAuth
  rw [htok]
  constructor
  · intro h401; simp [h401]
  · intro h401; simp [h401]

/-- Witness for C3 at a concrete 401 invocation. -/
theorem fetchWithAuth_status_dispatch_witness :
    fetchWithAuth (β := Nat) ⟨some "tok", []⟩ (.statusReq "a") (.resp 401 (some 7)) =
      (.error .unauthorized, ⟨none, []⟩,
        [.networkCall (.statusReq "a"), .redirectToLogin]) :=
  (fetchWithAuth_status_dispatch ⟨some "tok", []⟩ "tok" (.statusReq "a")
    401 (some 7) rfl).1 rfl

/-- C5: the action coordinator calls the action endpoint only if the
confirmation returned affirmative; a declined confirmation produces no side
effect at all and returns immediately. -/
theorem handleVmAction_confirmation_gate (s : ClientState) (server : Server)
    (action : String) (confirmed : Bool) (res : HttpResult ActionErrorBody) :
    (confirmed = false →
      handleVmAction s server action confirmed res = (.declined, s, [])) ∧
    (Request.actionReq server.id action ∈
        networkCalls (handleVmAction s server action confirmed res).2.2 →
      confirmed = true) := by
  constructor
  · intro hc; simp [handleVmAction, hc]
  · intro hmem
    cases confirmed with
    | false => simp [handleVmAction, networkCalls] at hmem
    | true => rfl

/-- Witness for C5 at a concrete declined invocation. -/
theorem handleVmAction_confirmation_gate_witness :
    handleVmAction ⟨some "tok", []⟩ ⟨"a", "A"⟩ "start" false .netErr =
      (.declined, ⟨some "tok", []⟩, []) :=
  (handleVmAction_confirmation_gate ⟨some "tok", []⟩ ⟨"a", "A"⟩ "start"
    false .netErr).1 rfl

/-- C6: a confirmed action invocation whose response is ok registers, after
the success alert, exactly one timeout with the fixed 3000 ms delay, and
that timeout carries exactly one forced dashboard synchronization and one
action-log synchronization for the entity; setTimeout fires its callback no
earlier than its delay. -/
theorem handleVmAction_success_schedules_once (s : ClientState) (tok : String)
    (server : Server) (action : String) (status : Nat) (body : Option ActionErrorBody)
    (htok : s.accessToken = some tok) (hok : okStatus status = true) :
    handleVmAction s server action true (.resp status body) =
      (.succeeded, s,
        [.networkCall (.actionReq server.id action),
         .alertMsg ("VM " ++ action ++ " initiated for server " ++ server.name ++ "."),
         .scheduleTimeout 3000 [.forcedDashboardSync server.id, .logsSync server.id]]) ∧
    scheduledTimeouts (handleVmAction s server action true (.resp status body)).2.2 =
      [(3000, [.forcedDashboardSync server.id, .logsSync server.id])] := by
  have hok' := hok
  simp only [okStatus, decide_eq_true_eq] at hok'
  have h401 : status ≠ 401 := by omega
  constructor
  · simp [handleVmAction, fetchWithAuth, htok, h401, hok]
  · simp [handleVmAction, fetchWithAuth, htok, h401, hok, scheduledTimeouts]

/-- Witness for C6 at a concrete successful invocation. -/
theorem handleVmAction_success_schedules_once_witness :
    handleVmAction ⟨some "tok", []⟩ ⟨"a", "A"⟩ "start" true (.resp 200 none) =
      (.succeeded, ⟨some "tok", []⟩,
        [.networkCall (.actionReq "a" "start"),
         .alertMsg "VM start initiated for server A.",
         .scheduleTimeout 3000 [.forcedDashboardSync "a", .logsSync "a"]]) :=
  (handleVmAction_success_schedules_once ⟨some "tok", []⟩ "tok" ⟨"a", "A"⟩
    "start" 200 none rfl (by decide)).1

/-- C9: with a token present and a parseable (absent or well-formed) cache
record, a forced status synchronization issues exactly one call to the
status endpoint, whatever the cache holds, in particular also when a fresh
value is cached. -/
theorem forced_sync_always_fetches (s : ClientState) (tok : String)
    (server : Server) (now : Nat) (res : HttpResult String)
    (htok : s.accessToken = some tok)
    (hrec : parseableRecord (storeGet (cacheKey server) s.store) = true) :
    networkCalls (updateDashboardForServer s server true now res).2.2 =
      [Request.statusReq server.id] := by
  have hbyp : bypassesCache true now (storeGet (cacheKey server) s.store) = true := by
    cases hg : storeGet (cacheKey server) s.store with
    | none => rfl
    | some rec =>
      cases rec with
      | valid dd ts => simp [bypassesCache]
      | corrupt raw => rw [hg] at hrec; simp [parseableRecord] at hrec
  rw [updateDashboard_reaches_fetch hbyp]
  exact dashboardFetchStep_networkCalls htok

/-- Witness for C9 with a fresh cached value for the very key being synced. -/
theorem forced_sync_always_fetches_witness :
    networkCalls
        (updateDashboardForServer
          ⟨some "tok", [("dashboardData-a", .valid "d" 100)]⟩
          ⟨"a", "A"⟩ true 100 (.resp 200 (some "d2"))).2.2 =
      [Request.statusReq "a"] :=
  forced_sync_always_fetches ⟨some "tok", [("dashboardData-a", .valid "d" 100)]⟩
    "tok" ⟨"a", "A"⟩ 100 (.resp 200 (some "d2")) rfl (by decide)

/-- C10: when the persisted record under the status cache key is not valid
JSON, a non-forced synchronization throws the parse error out of the
function: the state is untouched and the trace is empty, so neither the
freshness check nor a network call nor any rendering happens. -/
theorem corrupt_cache_record_throws (s : ClientState) (server : Server)
    (now : Nat) (res : HttpResult String) (raw : String)
    (hrec : storeGet (cacheKey server) s.store = some (.corrupt raw)) :
    updateDashboardForServer s server false now res = (.parseFailure, s, []) := by
  unfold updateDashboardForServer
  rw [hrec]

/-- Witness for C10 at a concrete corrupt record. -/
theorem corrupt_cache_record_throws_witness :
    updateDashboardForServer ⟨some "tok", [("dashboardData-a", .corrupt "oops")]⟩
        ⟨"a", "A"⟩ false 7 (.resp 200 (some "d")) =
      (.parseFailure, ⟨some "tok", [("dashboardData-a", .corrupt "oops")]⟩, []) :=
  corrupt_cache_record_throws ⟨some "tok", [("dashboardData-a", .corrupt "oops")]⟩
    ⟨"a", "A"⟩ 7 (.resp 200 (some "d")) "oops" (by decide)

/-- C1: if a status synchronization stores fetched data d at time t0, then a
second synchronization for the same key at any time t1 with t1 - t0 under
the 3600000 ms TTL and force off is a cache hit: it renders exactly the
stored d, leaves the state untouched, and its trace holds no network call. -/
theorem sync_cache_hit_within_ttl (s0 : ClientState) (server : Server)
    (f0 : Bool) (t0 t1 : Nat) (res0 res1 : HttpResult String) (d : String)
    (h : (updateDashboardForServer s0 server f0 t0 res0).1 = .fetched d)
    (hfresh : t1 - t0 < 3600000) :
    updateDashboardForServer ((updateDashboardForServer s0 server f0 t0 res0).2.1)
        server false t1 res1 =
      (.cacheHit d, (updateDashboardForServer s0 server f0 t0 res0).2.1,
        [.renderDashboard server.id d]) := by
  have hstep : updateDashboardForServer s0 server f0 t0 res0 =
      dashboardFetchStep s0 server t0 res0 := by
    cases hg : storeGet (cacheKey server) s0.store with
    | none => simp [updateDashboardForServer, hg]
    | some rec =>
      cases rec with
      | corrupt raw => simp [updateDashboardForServer, hg] at h
      | valid dd ts =>
        by_cases hc : f0 = false ∧ t0 - ts < 3600000
        · simp [updateDashboardForServer, hg, hc] at h
        · simp [updateDashboardForServer, hg, hc]
  rw [hstep] at h ⊢
  have hkey := dashboardFetchStep_fetched_store h
  simp [updateDashboardForServer, hkey, hfresh]

/-- Witness for C1: a first fetch at t0 = 0, a second call at t1 = 10 that
hits the cache with the same data and no network call. -/
theorem sync_cache_hit_within_ttl_witness :
    updateDashboardForServer
        ((updateDashboardForServer ⟨some "tok", []⟩ ⟨"a", "A"⟩ false 0
          (.resp 200 (some "d"))).2.1)
        ⟨"a", "A"⟩ false 10 .netErr =
      (.cacheHit "d",
        (updateDashboardForServer ⟨some "tok", []⟩ ⟨"a", "A"⟩ false 0
          (.resp 200 (some "d"))).2.1,
        [.renderDashboard "a" "d"]) :=
  sync_cache_hit_within_ttl ⟨some "tok", []⟩ ⟨"a", "A"⟩ false 0 10
    (.resp 200 (some "d")) .netErr "d" (by decide) (by decide)

/-- Counterexample to C2 as stated: a 401 clears the token but not the
cache, so after a sync receives a 401 a subsequent non-forced sync for an
entity with a fresh cached value succeeds as a cache hit instead of failing
with AuthError. -/
theorem post401_sync_can_still_cache_hit :
    ((updateDashboardForServer
        ⟨some "tok", [("dashboardData-a", .valid "d0" 0)]⟩
        ⟨"b", "B"⟩ true 5 (.resp 401 (some "x"))).1 =
      .degraded .authUnauthorized) ∧
    ((updateDashboardForServer
        ⟨some "tok", [("dashboardData-a", .valid "d0" 0)]⟩
        ⟨"b", "B"⟩ true 5 (.resp 401 (some "x"))).2.1.accessToken = none) ∧
    (updateDashboardForServer
        (updateDashboardForServer
          ⟨some "tok", [("dashboardData-a", .valid "d0" 0)]⟩
          ⟨"b", "B"⟩ true 5 (.resp 401 (some "x"))).2.1
        ⟨"a", "A"⟩ false 10 .netErr =
      (.cacheHit "d0",
        (updateDashboardForServer
          ⟨some "tok", [("dashboardData-a", .valid "d0" 0)]⟩
          ⟨"b", "B"⟩ true 5 (.resp 401 (some "x"))).2.1,
        [.renderDashboard "a" "d0"])) := by decide

/-- C2 amended: after the session token is cleared, every subsequent status
synchronization that is not served by a fresh well-formed cache record (it
is forced, or the record is absent or stale) hits the missing-token check
of the transport: it signals the redirect, surfaces the degraded AuthError
state, and its trace holds no network call. -/
theorem post401_sync_no_network (s : ClientState) (server : Server)
    (force : Bool) (now : Nat) (res : HttpResult String)
    (htok : s.accessToken = none)
    (hbyp : bypassesCache force now (storeGet (cacheKey server) s.store) = true) :
    updateDashboardForServer s server force now res =
      (.degraded .authNoToken, s,
        [.redirectToLogin, .consoleError server.id,
         .renderError server.id "Error loading data."]) ∧
    networkCalls (updateDashboardForServer s server force now res).2.2 = [] := by
  rw [updateDashboard_reaches_fetch hbyp]
  constructor
  · simp [dashboardFetchStep, fetchWithAuth, htok, degradedEvents, liftFetchErr]
  · simp [dashboardFetchStep, fetchWithAuth, htok, degradedEvents, liftFetchErr,
      networkCalls]

/-- Witness for the amended C2 at a concrete token-less state. -/
theorem post401_sync_no_network_witness :
    updateDashboardForServer ⟨none, []⟩ ⟨"a", "A"⟩ false 0 .netErr =
      (.degraded .authNoToken, ⟨none, []⟩,
        [.redirectToLogin, .consoleError "a",
         .renderError "a" "Error loading data."]) :=
  (post401_sync_no_network ⟨none, []⟩ ⟨"a", "A"⟩ false 0 .netErr rfl (by decide)).1

/-- C4: when a status synchronization reaches its fetch and the fetch fails
(a network error or any non-ok status, 401 included), the cache area is
left exactly as it was, stale record and original timestamp included, and
the degraded text is rendered to the traffic-details element. -/
theorem failed_fetch_preserves_cache (s : ClientState) (tok : String)
    (server : Server) (force : Bool) (now : Nat) (res : HttpResult String)
    (htok : s.accessToken = some tok)
    (hbyp : bypassesCache force now (storeGet (cacheKey server) s.store) = true)
    (hfail : fetchFailed res = true) :
    (updateDashboardForServer s server force now res).2.1.store = s.store ∧
    Event.renderError server.id "Error loading data." ∈
      (updateDashboardForServer s server force now res).2.2 := by
  rw [updateDashboard_reaches_fetch hbyp]
  cases res with
  | netErr => simp [dashboardFetchStep, fetchWithAuth, htok, degradedEvents]
  | resp status body =>
    simp only [fetchFailed] at hfail
    have hok : okStatus status = false := by simpa using hfail
    by_cases h401 : status = 401
    · simp [dashboardFetchStep, fetchWithAuth, htok, h401, degradedEvents]
    · simp [dashboardFetchStep, fetchWithAuth, htok, h401, hok, degradedEvents]

/-- Witness for C4: a 500 response leaves a stale record untouched and
renders the degraded text. -/
theorem failed_fetch_preserves_cache_witness :
    (updateDashboardForServer ⟨some "tok", [("dashboardData-a", .valid "old" 0)]⟩
        ⟨"a", "A"⟩ true 5 (.resp 500 none)).2.1.store =
      [("dashboardData-a", StoredRecord.valid "old" 0)] ∧
    Event.renderError "a" "Error loading data." ∈
      (updateDashboardForServer ⟨some "tok", [("dashboardData-a", .valid "old" 0)]⟩
        ⟨"a", "A"⟩ true 5 (.resp 500 none)).2.2 :=
  failed_fetch_preserves_cache ⟨some "tok", [("dashboardData-a", .valid "old" 0)]⟩
    "tok" ⟨"a", "A"⟩ true 5 (.resp 500 none) rfl (by decide) (by decide)

/-- Counterexample to C7 as stated: a non-401 failure response whose body is
not valid JSON makes the body parse throw into the catch block, so no
message at all is shown to the user, neither the detail nor the generic
one; only a console log happens. -/
theorem action_failure_nonjson_body_shows_no_message :
    (handleVmAction ⟨some "tok", []⟩ ⟨"a", "A"⟩ "start" true (.resp 500 none)).1 =
      .errorLogged .badBody ∧
    alerts (handleVmAction ⟨some "tok", []⟩ ⟨"a", "A"⟩ "start" true
        (.resp 500 none)).2.2 = [] ∧
    scheduledTimeouts (handleVmAction ⟨some "tok", []⟩ ⟨"a", "A"⟩ "start" true
        (.resp 500 none)).2.2 = [] := by decide

/-- C7 amended: for a confirmed action invocation whose response is a
non-401 failure with a JSON body, the user is alerted with the detail field
when it is present and non-empty and with the generic failure message
otherwise, and no timeout is registered; when the body is not valid JSON
only a console log occurs and nothing is alerted, still with no timeout. -/
theorem action_failure_json_body_alerts_detail (s : ClientState) (tok : String)
    (server : Server) (action : String) (status : Nat) (b : ActionErrorBody)
    (htok : s.accessToken = some tok) (hfail : okStatus status = false)
    (h401 : status ≠ 401) :
    handleVmAction s server action true (.resp status (some b)) =
      (.failedWithMsg (actionFailureMsg b), s,
        [.networkCall (.actionReq server.id action),
         .alertMsg ("Error: " ++ actionFailureMsg b)]) ∧
    scheduledTimeouts
        (handleVmAction s server action true (.resp status (some b))).2.2 = [] := by
  constructor
  · simp [handleVmAction, fetchWithAuth, htok, h401, hfail]
  · simp [handleVmAction, fetchWithAuth, htok, h401, hfail, scheduledTimeouts]

/-- Witness for the amended C7: a 500 response with detail "boom" alerts it. -/
theorem action_failure_json_body_alerts_detail_witness :
    handleVmAction ⟨some "tok", []⟩ ⟨"a", "A"⟩ "start" true
        (.resp 500 (some ⟨some "boom"⟩)) =
      (.failedWithMsg "boom", ⟨some "tok", []⟩,
        [.networkCall (.actionReq "a" "start"), .alertMsg "Error: boom"]) :=
  (action_failure_json_body_alerts_detail ⟨some "tok", []⟩ "tok" ⟨"a", "A"⟩
    "start" 500 ⟨some "boom"⟩ rfl (by decide) (by decide)).1

/-- C8: with a token present, every action-log synchronization issues exactly
one network call, to the log endpoint with the fixed limit 10, never writes
the cache area, and its outcome is the same whatever the cache area holds:
logs are never served from the cache. -/
theorem logs_sync_always_fetches_limit10 (s : ClientState) (tok : String)
    (server : Server) (res : HttpResult (List LogEntry))
    (htok : s.accessToken = some tok) :
    networkCalls (updateActionLogsForServer s server res).2.2 =
      [Request.logsReq server.id 10] ∧
    (updateActionLogsForServer s server res).2.1.store = s.store ∧
    (∀ t : List (String × StoredRecord),
      (updateActionLogsForServer { s with store := t } server res).1 =
        (updateActionLogsForServer s server res).1) := by
  refine ⟨?_, ?_, ?_⟩ <;>
  · cases res with
    | netErr => simp [updateActionLogsForServer, fetchWithAuth, htok, networkCalls]
    | resp status body =>
      by_cases h401 : status = 401
      · simp [updateActionLogsForServer, fetchWithAuth, htok, h401, networkCalls]
      · by_cases hok : okStatus status = true
        · cases body with
          | none =>
            simp [updateActionLogsForServer, fetchWithAuth, htok, h401, hok,
              networkCalls]
          | some logs =>
            cases logs with
            | nil =>
              simp [updateActionLogsForServer, fetchWithAuth, htok, h401, hok,
                networkCalls]
            | cons l ls =>
              simp [updateActionLogsForServer, fetchWithAuth, htok, h401, hok,
                networkCalls]
        · simp [updateActionLogsForServer, fetchWithAuth, htok, h401, hok,
            networkCalls]

/-- Witness for C8 at a concrete state with a populated cache area. -/
theorem logs_sync_always_fetches_limit10_witness :
    networkCalls
        (updateActionLogsForServer
          ⟨some "tok", [("dashboardData-a", .valid "d" 0)]⟩ ⟨"a", "A"⟩
          (.resp 200 (some []))).2.2 =
      [Request.logsReq "a" 10] :=
  (logs_sync_always_fetches_limit10
    ⟨some "tok", [("dashboardData-a", .valid "d" 0)]⟩ "tok" ⟨"a", "A"⟩
    (.resp 200 (some [])) rfl).1

end Claims

end GuardianDashboard
